import Mathlib

/-!
Verification of the tracia-node local execution and tracing pipeline.

This file gives a shallow embedding, in Lean 4, of the core of the
`tracia-node` client library: message interpolation (`interpolateMessages`),
span-id validation (`isValidSpanIdFormat`), the span persistence manager
(`scheduleSpanCreation`, `createSpanWithRetry`), the non-streaming and
streaming execution paths (`runLocalNonStreaming`, `createLocalStream`),
and the session chaining logic (`updateSessionState`).

Modelling conventions:
* JavaScript strings are Lean `String`s; a JS `Map` insertion order is an
  ordered list of keys; `undefined`/optional values are `Option`s; JS string
  truthiness (`''` falsy) is modelled explicitly where the code relies on it.
* Asynchronous generators are modelled as pure folds over the finite list of
  events the underlying source delivers before it completes or throws; a
  settled promise is an `Except` value.
* Wall-clock latency (`Date.now() - startTime`) is a parameter of the model:
  the code computes it once and the model threads that single value wherever
  the code uses it.
* Floating-point sampling parameters (`temperature`, `topP`) and the tool
  definition list are carried through by the code verbatim and untouched by
  every property considered here; they are elided from the span payload model.
-/

/-- Roles of `LocalPromptMessage` (src/types.ts `MessageRole`). -/
inductive MessageRole
  | system
  | developer
  | user
  | assistant
  | tool
deriving DecidableEq, Repr

/-- Content parts (src/types.ts `TextPart` / `ToolCallPart`); the JSON
`arguments` object is held abstractly as a string. -/
inductive ContentPart
  | text (text : String)
  | tool_call (id : String) (name : String) (arguments : String)
deriving DecidableEq, Repr

/-- A message's `content` is either a plain string or a list of parts. -/
inductive MessageContent
  | str (s : String)
  | parts (ps : List ContentPart)
deriving DecidableEq, Repr

/-- src/types.ts `LocalPromptMessage`. -/
structure LocalPromptMessage where
  role : MessageRole
  content : MessageContent
  toolCallId : Option String := none
  toolName : Option String := none
deriving DecidableEq, Repr

/-- A variable map (`Record<string, string>`), as an association list of the
object's own properties. -/
abbrev Vars := List (String × String)

/-- src/types.ts `LLMProvider`. -/
inductive LLMProvider
  | OPENAI
  | ANTHROPIC
  | GOOGLE
deriving DecidableEq, Repr

/-- src/types.ts `TraciaErrorCode`. -/
inductive TraciaErrorCode
  | UNAUTHORIZED
  | NOT_FOUND
  | CONFLICT
  | MISSING_PROVIDER_KEY
  | PROVIDER_ERROR
  | MISSING_VARIABLES
  | INVALID_REQUEST
  | NETWORK_ERROR
  | TIMEOUT
  | ABORTED
  | UNKNOWN
  | MISSING_PROVIDER_SDK
  | MISSING_PROVIDER_API_KEY
  | UNSUPPORTED_MODEL
deriving DecidableEq, Repr

/-- src/errors.ts `TraciaError`. -/
structure TraciaError where
  code : TraciaErrorCode
  message : String
  statusCode : Option Nat := none
deriving DecidableEq, Repr

/-- src/types.ts `FinishReason`. -/
inductive FinishReason
  | stop
  | tool_calls
  | max_tokens
deriving DecidableEq, Repr

/-- src/types.ts `ToolCall`; the JSON `arguments` object is held abstractly
as a string. -/
structure ToolCall where
  id : String
  name : String
  arguments : String
deriving DecidableEq, Repr

/-- src/types.ts `TokenUsage`. -/
structure TokenUsage where
  inputTokens : Nat
  outputTokens : Nat
  totalTokens : Nat
deriving DecidableEq, Repr

/-- src/types.ts `SpanStatus`. -/
inductive SpanStatus
  | SUCCESS
  | ERROR
deriving DecidableEq, Repr

/-! ### Interpolation (src/index.ts `interpolateMessages`)

The code replaces, in one left-to-right pass, every occurrence of the
regex `\{\{(\w+)\}\}` by `variables[key] ?? match`.  The scanner below is
written with an explicit fuel argument (always instantiated with the
length of the input) so that it is structurally recursive and evaluates
inside the kernel. -/

/-- JS regex `\w`: `[A-Za-z0-9_]`. -/
def isWordChar (c : Char) : Bool :=
  c.isAlphanum || c = '_'

/-- The literal text `{{key}}` as a character list. -/
def placeholderLit (key : List Char) : List Char :=
  '\x7b' :: '\x7b' :: (key ++ ['\x7d', '\x7d'])

/-- Attempt to match `(\w+)\}\}` at the head of `cs` (the characters right
after a `{{`), returning the captured key and the remaining characters.
The regex key `\w+` is greedy, and since `}` is not a word character a
shorter capture can never be followed by `}}`, so taking the maximal word
run is exactly the regex behaviour. -/
def splitPlaceholder (cs : List Char) : Option (List Char × List Char) :=
  let key := cs.takeWhile isWordChar
  match cs.dropWhile isWordChar with
  | '\x7d' :: '\x7d' :: rest => if key.isEmpty then none else some (key, rest)
  | _ => none

/-- The own-property names of `Object.prototype` in a JS runtime
(including the Annex B members, all present in Node).  A plain object
built from a `Record<string, string>` literal inherits these, so the
property access `variables[key]` is not `undefined` for them even when
`key` is not in the map. -/
def objectProtoProps : List String :=
  ["constructor", "hasOwnProperty", "isPrototypeOf", "propertyIsEnumerable",
   "toLocaleString", "toString", "valueOf", "__proto__",
   "__defineGetter__", "__defineSetter__", "__lookupGetter__", "__lookupSetter__"]

/-- The string the replacement callback's return value coerces to when
`variables[key]` hits an inherited `Object.prototype` member, as Node (V8)
stringifies it: the `__proto__` accessor yields `Object.prototype` itself
(`[object Object]`), `constructor` is the `Object` function, and the rest
are native functions named after their key. -/
def protoSubst (k : String) : String :=
  if k = "__proto__" then "[object Object]"
  else if k = "constructor" then "function Object() \x7b [native code] \x7d"
  else "function " ++ k ++ "() \x7b [native code] \x7d"

/-- JS property access `variables[key]` on a plain object: an own
property's value if present, otherwise the inherited `Object.prototype`
member (never `undefined` for those), otherwise `undefined`. -/
def jsVarLookup (vars : Vars) (k : String) : Option String :=
  match List.lookup k vars with
  | some v => some v
  | none => if k ∈ objectProtoProps then some (protoSubst k) else none

/-- `variables[key] ?? match`: the replacement for a matched `{{key}}`.
`variables[key]` is plain property access, so it resolves inherited
`Object.prototype` members as well as own properties; only a genuinely
`undefined` access leaves the literal token. -/
def substFor (vars : Vars) (key : List Char) : List Char :=
  match jsVarLookup vars (String.mk key) with
  | some v => v.data
  | none => placeholderLit key

/-- One left-to-right scan of `String.replace(/\{\{(\w+)\}\}/g, ...)`.
`fuel` only serves termination; it is always called with `fuel = cs.length`
and is fuel-irrelevant above that bound (`interpGo_fuel`). -/
def interpGo (vars : Vars) : Nat → List Char → List Char
  | 0, cs => cs
  | _ + 1, [] => []
  | fuel + 1, c :: cs =>
    if c = '\x7b' then
      match cs with
      | c2 :: cs2 =>
        if c2 = '\x7b' then
          match splitPlaceholder cs2 with
          | some (key, rest2) => substFor vars key ++ interpGo vars fuel rest2
          | none => c :: interpGo vars fuel cs
        else c :: interpGo vars fuel cs
      | [] => c :: interpGo vars fuel cs
    else c :: interpGo vars fuel cs

/-- The single-string interpolation the code applies to string content and
to text parts. -/
def interpChars (vars : Vars) (cs : List Char) : List Char :=
  interpGo vars cs.length cs

/-- String-level wrapper of `interpChars`. -/
def interpolateString (vars : Vars) (s : String) : String :=
  String.mk (interpChars vars s.data)

/-- Interpolation of one content part: text parts are replaced, tool-call
parts pass through unchanged (src/index.ts lines 957-968). -/
def interpolateContentPart (vars : Vars) : ContentPart → ContentPart
  | .text t => .text (interpolateString vars t)
  | .tool_call i n a => .tool_call i n a

/-- Interpolation of one message, mirroring the branch order of the source
(src/index.ts lines 940-970): the string-content branch comes first, then
the tool-role early return, then the part-list branch. -/
def interpolateMessage (vars : Vars) (m : LocalPromptMessage) : LocalPromptMessage :=
  match m.content with
  | .str s => { m with content := .str (interpolateString vars s) }
  | .parts ps =>
    if m.role = .tool then m
    else { m with content := .parts (ps.map (interpolateContentPart vars)) }

/-- src/index.ts `interpolateMessages`: `if (!variables) return messages`,
otherwise map `interpolateMessage` over the list. -/
def interpolateMessages (vars : Option Vars) (messages : List LocalPromptMessage) :
    List LocalPromptMessage :=
  match vars with
  | none => messages
  | some v => messages.map (interpolateMessage v)

/-! ### Template pieces: the specification-side view of a string

A string is viewed as a sequence of literal chunks (containing no `{`) and
placeholder tokens `{{key}}` with `key` a nonempty word-character run.
`renderTemplate` rebuilds the original string; `renderSubst` is what the
specification says interpolation must produce: present keys replaced by
their mapped value everywhere, absent keys left verbatim. -/

/-- A piece of a template string: a literal chunk or a `{{key}}` token. -/
inductive TemplatePiece
  | lit (s : String)
  | hole (k : String)
deriving DecidableEq, Repr

/-- Characters of one piece in the input string. -/
def renderPiece : TemplatePiece → List Char
  | .lit s => s.data
  | .hole k => placeholderLit k.data

/-- The input string assembled from its pieces. -/
def renderTemplate (ps : List TemplatePiece) : List Char :=
  (ps.map renderPiece).flatten

/-- Characters of one piece after substitution: a present key becomes its
mapped value, an absent key stays as the literal `{{key}}`. -/
def renderSubstPiece (vars : Vars) : TemplatePiece → List Char
  | .lit s => s.data
  | .hole k => substFor vars k.data

/-- The output string the specification demands. -/
def renderSubst (vars : Vars) (ps : List TemplatePiece) : List Char :=
  (ps.map (renderSubstPiece vars)).flatten

/-- Well-formedness of a piece: literal chunks contain no `{`, keys are
nonempty word-character runs (the only strings the token syntax admits). -/
def goodPiece : TemplatePiece → Prop
  | .lit s => '\x7b' ∉ s.data
  | .hole k => k.data ≠ [] ∧ ∀ c ∈ k.data, isWordChar c

instance : DecidablePred goodPiece
  | .lit s => inferInstanceAs (Decidable ('\x7b' ∉ s.data))
  | .hole k => inferInstanceAs (Decidable (k.data ≠ [] ∧ ∀ c ∈ k.data, isWordChar c))

/-! ### Identifier validation (src/utils.ts)

`SPAN_ID_REGEX = /^sp_[a-f0-9]{16}$/i` and `TRACE_ID_REGEX = /^tr_[a-f0-9]{16}$/i`;
`isValidSpanIdFormat` tests the candidate against both (legacy trace ids are
accepted wherever a span id is validated).  The `i` flag applies to the
prefix letters as well as to the hex digits; for ASCII patterns JS
case-insensitive matching is exactly ASCII case folding. -/

/-- `[a-f0-9]` under the `i` flag: an ASCII hex digit of either case. -/
def isHexDigit (c : Char) : Bool :=
  c.isDigit || ('a' ≤ c && c ≤ 'f') || ('A' ≤ c && c ≤ 'F')

/-- `/^<p1><p2>_[a-f0-9]{16}$/i` for lowercase letters `p1 p2`. -/
def matchesIdRegex (p1 p2 : Char) (s : String) : Bool :=
  match s.data with
  | c1 :: c2 :: c3 :: rest =>
    c1.toLower = p1 && c2.toLower = p2 && c3 = '_' &&
      rest.length = 16 && rest.all isHexDigit
  | _ => false

/-- src/utils.ts `isValidSpanIdFormat`:
`SPAN_ID_REGEX.test(spanId) || TRACE_ID_REGEX.test(spanId)`. -/
def isValidSpanIdFormat (s : String) : Bool :=
  matchesIdRegex 's' 'p' s || matchesIdRegex 't' 'r' s

/-- src/utils.ts `isValidTraceIdFormat`: `TRACE_ID_REGEX.test(traceId)`. -/
def isValidTraceIdFormat (s : String) : Bool :=
  matchesIdRegex 't' 'r' s

/-! ### Span persistence manager (src/index.ts lines 890-932)

The pending-span map is a JS `Map` keyed by span id; only the key set and
its insertion order matter to the properties here, so the map is modelled
as the ordered list of its keys.  `Map.set` on an existing key keeps its
position; on a new key it appends.  `Map.keys().next().value` is the first
key in insertion order, `undefined` (falsy) on an empty map. -/

/-- `MAX_PENDING_SPANS`. -/
def MAX_PENDING_SPANS : Nat := 1000

/-- `SPAN_RETRY_ATTEMPTS`. -/
def SPAN_RETRY_ATTEMPTS : Nat := 2

/-- `SPAN_RETRY_DELAY_MS`. -/
def SPAN_RETRY_DELAY_MS : Nat := 500

/-- `Map.set` on the key set: keeps an existing key in place, appends a
new one. -/
def mapSet (m : List String) (k : String) : List String :=
  if k ∈ m then m else m ++ [k]

/-- `Map.delete` on the key set. -/
def mapDelete (m : List String) (k : String) : List String :=
  m.erase k

/-- src/index.ts `scheduleSpanCreation`, restricted to its effect on the
pending map: evict the oldest key when at capacity (guarded by JS
truthiness of the oldest key), then insert the new entry.  The function is
total: eviction raises nothing to the caller. -/
def scheduleSpanCreation (m : List String) (spanId : String) : List String :=
  let m1 :=
    if MAX_PENDING_SPANS ≤ m.length then
      match m.head? with
      | some oldest => if oldest ≠ "" then mapDelete m oldest else m
      | none => m
    else m
  mapSet m1 spanId

/-- The two operations that mutate the pending map: a `schedule` call, and
a write task settling (its `.finally` removes its own key, on fulfilment
and rejection alike). -/
inductive SpanOp
  | schedule (id : String)
  | settle (id : String)
deriving DecidableEq, Repr

/-- Apply one map operation. -/
def applySpanOp (m : List String) : SpanOp → List String
  | .schedule id => scheduleSpanCreation m id
  | .settle id => mapDelete m id

/-- Run a sequence of operations against an initially empty map (the map
is created empty with the client, src/index.ts line 145). -/
def runSpanOps (ops : List SpanOp) : List String :=
  ops.foldl applySpanOp []

/-! ### Span write retry (src/index.ts `createSpanWithRetry`) -/

/-- State of the retry loop when it exits: how many attempts ran, which
delays were awaited between attempts, and — if every attempt failed — the
last error (the loop returns early on the first success, in which case the
code after the loop is never reached). -/
structure RetryRun where
  attempts : Nat
  delays : List Nat
  lastError : Option String
deriving DecidableEq, Repr

/-- The `for (attempt = 0; attempt <= SPAN_RETRY_ATTEMPTS; attempt++)`
loop: `attemptResult n` is the outcome of the n-th `spans.create` call;
on failure of attempt `n < SPAN_RETRY_ATTEMPTS` the code awaits
`SPAN_RETRY_DELAY_MS * (attempt + 1)` milliseconds.  `remaining` counts
the attempts still allowed after the current one. -/
def retryLoop (attemptResult : Nat → Except String Unit) :
    Nat → Nat → RetryRun
  | 0, attempt =>
    match attemptResult attempt with
    | .ok _ => ⟨1, [], none⟩
    | .error e => ⟨1, [], some e⟩
  | remaining + 1, attempt =>
    match attemptResult attempt with
    | .ok _ => ⟨1, [], none⟩
    | .error _ =>
      let tail := retryLoop attemptResult remaining (attempt + 1)
      ⟨tail.attempts + 1, SPAN_RETRY_DELAY_MS * (attempt + 1) :: tail.delays, tail.lastError⟩

/-- Observable outcome of one scheduled write task.  The task never
rejects — every `spans.create` failure is caught inside the loop — which
the model renders by the function being total into this record. -/
structure SpanWriteOutcome where
  attempts : Nat
  delays : List Nat
  callbackCalls : List (String × String)
deriving DecidableEq, Repr

/-- src/index.ts `createSpanWithRetry`: run the attempts, then invoke the
injected `onSpanError` callback once with the last error and the span id,
but only when a callback was injected and every attempt failed. -/
def createSpanWithRetry (spanId : String) (attemptResult : Nat → Except String Unit)
    (hasErrorCallback : Bool) : SpanWriteOutcome :=
  let run := retryLoop attemptResult SPAN_RETRY_ATTEMPTS 0
  { attempts := run.attempts
    delays := run.delays
    callbackCalls :=
      match hasErrorCallback, run.lastError with
      | true, some e => [(e, spanId)]
      | _, _ => [] }

/-! ### Run-local input, results and span payloads -/

/-- src/types.ts `CompletionResult` (src/providers/ai-sdk.ts). -/
structure CompletionResult where
  text : String
  inputTokens : Nat
  outputTokens : Nat
  totalTokens : Nat
  toolCalls : List ToolCall
  finishReason : FinishReason
  provider : LLMProvider
deriving DecidableEq, Repr

/-- src/types.ts `RunLocalInput` (the fields the modelled control flow
reads; floating-point sampling parameters are carried through verbatim by
the code and elided here). -/
structure RunLocalInput where
  model : String
  messages : List LocalPromptMessage
  vars : Option Vars := none
  provider : Option LLMProvider := none
  spanId : Option String := none
  traceId : Option String := none
  parentSpanId : Option String := none
  sendTrace : Option Bool := none
  tags : Option (List String) := none
  userId : Option String := none
  sessionId : Option String := none
  providerApiKey : Option String := none
  maxOutputTokens : Option Nat := none
deriving DecidableEq, Repr

/-- src/types.ts `RunLocalResult`. -/
structure RunLocalResult where
  text : String
  spanId : String
  traceId : String
  latencyMs : Nat
  usage : TokenUsage
  cost : Option Nat
  provider : LLMProvider
  model : String
  toolCalls : List ToolCall
  finishReason : FinishReason
  message : LocalPromptMessage
deriving DecidableEq, Repr

/-- The span payload handed to `scheduleSpanCreation`
(src/types.ts `CreateSpanPayload`). -/
structure CreateSpanPayload where
  spanId : String
  model : String
  provider : LLMProvider
  inputMessages : List LocalPromptMessage
  vars : Option Vars
  output : Option String
  status : SpanStatus
  error : Option String
  latencyMs : Nat
  inputTokens : Nat
  outputTokens : Nat
  totalTokens : Nat
  tags : Option (List String)
  userId : Option String
  sessionId : Option String
  maxOutputTokens : Option Nat
  toolCalls : Option (List ToolCall)
  traceId : String
  parentSpanId : Option String
deriving DecidableEq, Repr

/-- src/index.ts `buildAssistantMessage`: plain string content without tool
calls, otherwise content parts — the text part only when the text is truthy
(nonempty). -/
def buildAssistantMessage (text : String) (toolCalls : List ToolCall) :
    LocalPromptMessage :=
  if toolCalls.length = 0 then
    { role := .assistant, content := .str text }
  else
    let textParts : List ContentPart := if text = "" then [] else [.text text]
    { role := .assistant
      content := .parts (textParts ++
        toolCalls.map fun tc => .tool_call tc.id tc.name tc.arguments) }

/-- JS `a || b` on an optional string: the fallback is used when the value
is absent or empty. -/
def strOr (o : Option String) (d : String) : String :=
  match o with
  | some s => if s = "" then d else s
  | none => d

/-- `input.sendTrace !== false`. -/
def sendTraceEnabled (input : RunLocalInput) : Bool :=
  input.sendTrace ≠ some false

/-- The `INVALID_REQUEST` error thrown for a malformed caller-supplied span
id (src/index.ts lines 212-217). -/
def invalidSpanIdError : TraciaError :=
  { code := .INVALID_REQUEST
    message := "Invalid span ID format. Must match: sp_ + 16 hex characters (e.g., sp_1234567890abcdef)" }

/-- `input.spanId && !isValidSpanIdFormat(input.spanId)` guarded by
`sendTrace !== false`: whether the caller-supplied span id is rejected. -/
def spanIdRejected (input : RunLocalInput) : Bool :=
  sendTraceEnabled input &&
    match input.spanId with
    | some s => s ≠ "" && ! isValidSpanIdFormat s
    | none => false

/-- Per-message check of `validateRunLocalInput`: tool messages must have a
truthy `toolCallId` and string content.  (The JS example text inside the
error messages is elided.) -/
def toolMessageError (m : LocalPromptMessage) : Option TraciaError :=
  if m.role = .tool then
    match m.toolCallId with
    | none => some { code := .INVALID_REQUEST, message := "Tool messages must include toolCallId." }
    | some tid =>
      if tid = "" then
        some { code := .INVALID_REQUEST, message := "Tool messages must include toolCallId." }
      else
        match m.content with
        | .str _ => none
        | .parts _ =>
          some { code := .INVALID_REQUEST, message := "Tool message content must be a string (the tool result)." }
  else none

/-- Whitespace trimming at the character level. -/
def trimChars (cs : List Char) : List Char :=
  ((cs.dropWhile Char.isWhitespace).reverse.dropWhile Char.isWhitespace).reverse

/-- `input.model.trim() === ''` at the character level (`String.trim`
itself does not reduce inside the kernel). -/
def isBlank (s : String) : Bool :=
  trimChars s.data = []

/-- src/index.ts `validateRunLocalInput`: nonempty model, nonempty message
list, and the per-message tool checks in order; `none` means the input
passed. -/
def validateRunLocalInput (input : RunLocalInput) : Option TraciaError :=
  if isBlank input.model then
    some { code := .INVALID_REQUEST, message := "model is required and cannot be empty" }
  else if input.messages = [] then
    some { code := .INVALID_REQUEST, message := "messages array is required and cannot be empty" }
  else
    input.messages.findSome? toolMessageError

instance {ε α : Type} [DecidableEq ε] [DecidableEq α] : DecidableEq (Except ε α) :=
  fun x y =>
    match x, y with
    | .ok a, .ok b => decidable_of_iff (a = b) (by simp)
    | .error a, .error b => decidable_of_iff (a = b) (by simp)
    | .ok _, .error _ => isFalse (by simp)
    | .error _, .ok _ => isFalse (by simp)

/-- Environment of one non-streaming `runLocal` call: the outcomes of the
external collaborators (provider resolution, credential lookup, the
provider `complete` call — already wrapped into a `TraciaError` on failure
as the code does), the measured wall-clock latency, and the two ids the
generators would produce. -/
structure RunEnv where
  resolved : Except TraciaError LLMProvider
  apiKey : Except TraciaError String
  completion : Except TraciaError CompletionResult
  latencyMs : Nat
  genSpanId : String
  genTraceId : String
deriving DecidableEq, Repr

/-- Ordered effects of one non-streaming call, as observable at its
boundary: the provider call, the span scheduling, the throw or the return
— in the order the code performs them. -/
inductive RunEvent
  | calledProvider
  | scheduledSpan (payload : CreateSpanPayload)
  | threw (e : TraciaError)
  | returned (r : RunLocalResult)
deriving DecidableEq, Repr

/-- The span payload scheduled on the success path of
`runLocalNonStreaming` (src/index.ts lines 258-281 with
`completionResult` non-null, `caughtError` null). -/
def successSpanPayload (input : RunLocalInput) (env : RunEnv)
    (cr : CompletionResult) (spanId traceId : String) : CreateSpanPayload :=
  { spanId := spanId
    model := input.model
    provider := cr.provider
    inputMessages := interpolateMessages input.vars input.messages
    vars := input.vars
    output := some cr.text
    status := .SUCCESS
    error := none
    latencyMs := env.latencyMs
    inputTokens := cr.inputTokens
    outputTokens := cr.outputTokens
    totalTokens := cr.totalTokens
    tags := input.tags
    userId := input.userId
    sessionId := input.sessionId
    maxOutputTokens := input.maxOutputTokens
    toolCalls := some cr.toolCalls
    traceId := traceId
    parentSpanId := input.parentSpanId }

/-- The span payload scheduled on the failure path of
`runLocalNonStreaming` (src/index.ts lines 258-281 with
`completionResult` null, `caughtError` non-null): the provider falls back
to the resolved one, output is null, usage is zero. -/
def errorSpanPayload (input : RunLocalInput) (env : RunEnv)
    (provider : LLMProvider) (err : TraciaError) (spanId traceId : String) :
    CreateSpanPayload :=
  { spanId := spanId
    model := input.model
    provider := provider
    inputMessages := interpolateMessages input.vars input.messages
    vars := input.vars
    output := none
    status := .ERROR
    error := some err.message
    latencyMs := env.latencyMs
    inputTokens := 0
    outputTokens := 0
    totalTokens := 0
    tags := input.tags
    userId := input.userId
    sessionId := input.sessionId
    maxOutputTokens := input.maxOutputTokens
    toolCalls := none
    traceId := traceId
    parentSpanId := input.parentSpanId }

/-- The value returned on the success path (src/index.ts lines 292-308). -/
def successRunResult (input : RunLocalInput) (env : RunEnv)
    (cr : CompletionResult) (spanId traceId : String) : RunLocalResult :=
  { text := cr.text
    spanId := spanId
    traceId := traceId
    latencyMs := env.latencyMs
    usage := ⟨cr.inputTokens, cr.outputTokens, cr.totalTokens⟩
    cost := none
    provider := cr.provider
    model := input.model
    toolCalls := cr.toolCalls
    finishReason := cr.finishReason
    message := buildAssistantMessage cr.text cr.toolCalls }

/-- src/index.ts `runLocalNonStreaming` as the ordered list of its
observable effects: validation, span-id handling, interpolation, provider
resolution, credential lookup, the provider call, span scheduling, and the
throw or return — in source order. -/
def runLocalNonStreaming (input : RunLocalInput) (env : RunEnv) : List RunEvent :=
  match validateRunLocalInput input with
  | some e => [.threw e]
  | none =>
    if spanIdRejected input then [.threw invalidSpanIdError]
    else
      let doTrace := sendTraceEnabled input
      let spanId := if doTrace then strOr input.spanId env.genSpanId else ""
      let traceId := if doTrace then strOr input.traceId env.genTraceId else ""
      match env.resolved with
      | .error e => [.threw e]
      | .ok provider =>
        match env.apiKey with
        | .error e => [.threw e]
        | .ok _ =>
          RunEvent.calledProvider ::
          match env.completion with
          | .error err =>
            (if spanId ≠ "" then
              [RunEvent.scheduledSpan (errorSpanPayload input env provider err spanId traceId)]
            else []) ++ [RunEvent.threw err]
          | .ok cr =>
            (if spanId ≠ "" then
              [RunEvent.scheduledSpan (successSpanPayload input env cr spanId traceId)]
            else []) ++ [RunEvent.returned (successRunResult input env cr spanId traceId)]

/-- The result a call returned, if it did. -/
def runReturn (events : List RunEvent) : Option RunLocalResult :=
  events.findSome? fun e =>
    match e with
    | .returned r => some r
    | _ => none

/-- The span payload a call scheduled, if it did. -/
def runScheduled (events : List RunEvent) : Option CreateSpanPayload :=
  events.findSome? fun e =>
    match e with
    | .scheduledSpan p => some p
    | _ => none

/-! ### Session (src/session.ts) -/

/-- The session's private state. -/
structure SessionState where
  traceId : Option String
  lastSpanId : Option String
deriving DecidableEq, Repr

/-- JS truthiness of a nullable string. -/
def optTruthy : Option String → Bool
  | none => false
  | some s => s ≠ ""

/-- src/session.ts `updateSessionState`: no-op on an empty span id;
otherwise always adopt the span id, and adopt the trace id only when the
session has none (and the produced one is truthy). -/
def updateSessionState (st : SessionState) (spanId traceId : String) : SessionState :=
  if spanId = "" then st
  else
    { traceId :=
        if ! optTruthy st.traceId && traceId ≠ "" then some traceId else st.traceId
      lastSpanId := some spanId }

/-- src/session.ts `TraciaSession.runLocal` (non-streaming path): inject
the session's trace id and last span id into the input, run the call, and
— only when it returns — fold its produced ids into the session state. -/
def sessionRunLocalNonStreaming (st : SessionState) (input : RunLocalInput)
    (env : RunEnv) : SessionState × List RunEvent :=
  let events := runLocalNonStreaming
    { input with traceId := st.traceId, parentSpanId := st.lastSpanId } env
  match runReturn events with
  | some r => (updateSessionState st r.spanId r.traceId, events)
  | none => (st, events)

/-! ### Streaming engine (src/providers/ai-sdk.ts `stream`,
src/index.ts `createLocalStream`)

The underlying AI SDK `streamText` call is an external collaborator; it is
modelled at its boundary as the finite list of `fullStream` events it
delivers and the way its iteration ends.  Modelled from the spec: the
external text-generation capability streams text fragments and "ultimately
produc[es] the same result shape" — its final `text` is the full streamed
text, i.e. the concatenation of its `text-delta` fragments. -/

/-- One event of the SDK `fullStream`: a text delta, an error event
(carrying the original provider error, held abstractly as its message), or
any other event kind the loop ignores. -/
inductive SdkEvent
  | textDelta (text : String)
  | errorEvent (error : String)
  | otherEvent
deriving DecidableEq, Repr

/-- A raw tool call as reported by the SDK (`toolCallId`/`toolName` may be
absent — empty models falsy — and `input` may be missing). -/
structure RawToolCall where
  toolCallId : String
  toolName : String
  input : Option String
deriving DecidableEq, Repr

/-- How iterating the SDK stream ends: it completes (and the SDK's
`usage`/`toolCalls`/`finishReason` promises resolve with the given data),
it throws an `AbortError` because the combined cancellation signal fired,
or it throws some other error (a plain provider error, or a `TraciaError`
raised while loading the SDK or the provider module). -/
inductive SdkEnding
  | completed (usage : TokenUsage) (toolCalls : List RawToolCall)
      (finishReason : Option String)
  | abortError
  | thrown (error : String)
  | thrownTracia (e : TraciaError)
deriving DecidableEq, Repr

/-- One run of the external SDK stream: the events delivered before the
iteration ends, and how it ends. -/
structure SdkRun where
  events : List SdkEvent
  ending : SdkEnding
deriving DecidableEq, Repr

/-- The text deltas among the delivered events, in order. -/
def streamDeltas (events : List SdkEvent) : List String :=
  events.filterMap fun e =>
    match e with
    | .textDelta t => some t
    | _ => none

/-- `capturedStreamError` after the loop: the last error event delivered,
if any (each error event overwrites the previous one). -/
def lastErrorEvent (events : List SdkEvent) : Option String :=
  events.foldl
    (fun acc e =>
      match e with
      | .errorEvent err => some err
      | _ => acc)
    none

/-- src/providers/ai-sdk.ts `parseFinishReason`. -/
def parseFinishReason (reason : Option String) : FinishReason :=
  if reason = some "tool-calls" then .tool_calls
  else if reason = some "length" then .max_tokens
  else .stop

/-- src/providers/ai-sdk.ts `extractToolCalls`: keep the calls with truthy
id and name, defaulting absent arguments to the empty object. -/
def extractToolCalls (tcs : List RawToolCall) : List ToolCall :=
  (tcs.filter fun tc => tc.toolCallId ≠ "" && tc.toolName ≠ "").map fun tc =>
    { id := tc.toolCallId, name := tc.toolName, arguments := tc.input.getD "\x7b\x7d" }

/-- The string name of a provider (the TS enum values). -/
def providerName : LLMProvider → String
  | .OPENAI => "openai"
  | .ANTHROPIC => "anthropic"
  | .GOOGLE => "google"

/-- src/providers/ai-sdk.ts `buildProviderErrorMessage` (the credential
scrubbing and status-code suffix operate inside the message string and are
elided; no property here depends on the message's internal format). -/
def buildProviderErrorMessage (provider : LLMProvider) (model : String)
    (rawMessage : String) : String :=
  providerName provider ++ " error for model \"" ++ model ++ "\": " ++ rawMessage

/-- Boundary view of the `StreamResult` the provider-level `stream`
function returns: the chunks its generator yields before it stops, the
settled value of its `result` promise, and the error the generator threw
(none when it finished normally).  When the generator throws, the code has
always rejected `result` with the same error first. -/
structure ProviderStreamRun where
  chunks : List String
  resultSettled : Except TraciaError CompletionResult
  genThrew : Option TraciaError
deriving DecidableEq, Repr

/-- src/providers/ai-sdk.ts `stream` (lines 482-580), as a function of the
SDK run: yield each text delta; remember the last error event; on normal
completion throw the captured error if any, otherwise resolve the result
from the SDK's final data; on an `AbortError` reject with `ABORTED`; on
any other thrown error prefer the captured stream error, pass a thrown
`TraciaError` through, and wrap anything else as `PROVIDER_ERROR`. -/
def aiSdkStream (provider : LLMProvider) (model : String) (run : SdkRun) :
    ProviderStreamRun :=
  let chunks := streamDeltas run.events
  let captured := lastErrorEvent run.events
  match run.ending with
  | .completed usage rawToolCalls finishReason =>
    match captured with
    | some e =>
      let te : TraciaError :=
        { code := .PROVIDER_ERROR, message := buildProviderErrorMessage provider model e }
      ⟨chunks, .error te, some te⟩
    | none =>
      ⟨chunks,
        .ok
          { text := String.join chunks
            inputTokens := usage.inputTokens
            outputTokens := usage.outputTokens
            totalTokens := usage.totalTokens
            toolCalls := extractToolCalls rawToolCalls
            finishReason := parseFinishReason finishReason
            provider := provider },
        none⟩
  | .abortError =>
    let te : TraciaError := { code := .ABORTED, message := "Stream aborted" }
    ⟨chunks, .error te, some te⟩
  | .thrown e =>
    let orig := captured.getD e
    let te : TraciaError :=
      { code := .PROVIDER_ERROR, message := buildProviderErrorMessage provider model orig }
    ⟨chunks, .error te, some te⟩
  | .thrownTracia te0 =>
    match captured with
    | some e =>
      let te : TraciaError :=
        { code := .PROVIDER_ERROR, message := buildProviderErrorMessage provider model e }
      ⟨chunks, .error te, some te⟩
    | none => ⟨chunks, .error te0, some te0⟩

/-- src/types.ts `StreamResult`: `RunLocalResult` plus the `aborted` flag. -/
structure StreamResultFinal where
  text : String
  spanId : String
  traceId : String
  latencyMs : Nat
  usage : TokenUsage
  cost : Option Nat
  provider : LLMProvider
  model : String
  aborted : Bool
  toolCalls : List ToolCall
  finishReason : FinishReason
  message : LocalPromptMessage
deriving DecidableEq, Repr

/-- Boundary view of one fully consumed `LocalStream`: the chunks its
iterator yielded, the span payload it scheduled (if any), and the settled
state of its `result` promise. -/
structure LocalStreamOutcome where
  yielded : List String
  scheduled : Option CreateSpanPayload
  result : Except TraciaError StreamResultFinal
deriving DecidableEq, Repr

/-- The span payload scheduled on the successful streaming path
(src/index.ts lines 661-686). -/
def streamSuccessSpanPayload (input : RunLocalInput) (cr : CompletionResult)
    (spanId traceId : String) (latencyMs : Nat) : CreateSpanPayload :=
  { spanId := spanId
    model := input.model
    provider := cr.provider
    inputMessages := interpolateMessages input.vars input.messages
    vars := input.vars
    output := some cr.text
    status := .SUCCESS
    error := none
    latencyMs := latencyMs
    inputTokens := cr.inputTokens
    outputTokens := cr.outputTokens
    totalTokens := cr.totalTokens
    tags := input.tags
    userId := input.userId
    sessionId := input.sessionId
    maxOutputTokens := input.maxOutputTokens
    toolCalls := some cr.toolCalls
    traceId := traceId
    parentSpanId := input.parentSpanId }

/-- The span payload scheduled in the streaming catch block (src/index.ts
lines 723-746): output is the accumulated text (null when empty, by JS
`collectedText || null`), usage is zero, and no tool calls are recorded. -/
def streamErrorSpanPayload (input : RunLocalInput) (provider : LLMProvider)
    (errorMessage collected : String) (spanId traceId : String) (latencyMs : Nat) :
    CreateSpanPayload :=
  { spanId := spanId
    model := input.model
    provider := provider
    inputMessages := interpolateMessages input.vars input.messages
    vars := input.vars
    output := if collected = "" then none else some collected
    status := .ERROR
    error := some errorMessage
    latencyMs := latencyMs
    inputTokens := 0
    outputTokens := 0
    totalTokens := 0
    tags := input.tags
    userId := input.userId
    sessionId := input.sessionId
    maxOutputTokens := input.maxOutputTokens
    toolCalls := none
    traceId := traceId
    parentSpanId := input.parentSpanId }

/-- The catch block of `wrappedChunks` (src/index.ts lines 710-776):
`isAborted = aborted || signal.aborted` is the `abortedFlag` parameter;
when aborted, the result promise resolves with the accumulated text and
`aborted: true`; otherwise it rejects with the (already `TraciaError`)
error. -/
def localStreamCatch (input : RunLocalInput) (provider : LLMProvider)
    (spanId traceId : String) (chunks : List String) (latencyMs : Nat)
    (abortedFlag : Bool) (e : TraciaError) : LocalStreamOutcome :=
  let collected := String.join chunks
  let errorMessage := if abortedFlag then "Stream aborted" else e.message
  { yielded := chunks
    scheduled :=
      if spanId ≠ "" then
        some (streamErrorSpanPayload input provider errorMessage collected
          spanId traceId latencyMs)
      else none
    result :=
      if abortedFlag then
        .ok
          { text := collected
            spanId := spanId
            traceId := traceId
            latencyMs := latencyMs
            usage := ⟨0, 0, 0⟩
            cost := none
            provider := provider
            model := input.model
            aborted := true
            toolCalls := []
            finishReason := .stop
            message := buildAssistantMessage collected [] }
      else .error e }

/-- src/index.ts `createLocalStream` (lines 610-793), composed over a
provider-stream run and fully consumed: accumulate and yield every chunk;
if the provider generator finished normally, await its result, schedule
the success span and resolve; if it threw, run the catch block. -/
def createLocalStream (input : RunLocalInput) (provider : LLMProvider)
    (spanId traceId : String) (ps : ProviderStreamRun) (latencyMs : Nat)
    (abortedFlag : Bool) : LocalStreamOutcome :=
  match ps.genThrew with
  | none =>
    match ps.resultSettled with
    | .ok cr =>
      { yielded := ps.chunks
        scheduled :=
          if spanId ≠ "" then
            some (streamSuccessSpanPayload input cr spanId traceId latencyMs)
          else none
        result :=
          .ok
            { text := cr.text
              spanId := spanId
              traceId := traceId
              latencyMs := latencyMs
              usage := ⟨cr.inputTokens, cr.outputTokens, cr.totalTokens⟩
              cost := none
              provider := cr.provider
              model := input.model
              aborted := false
              toolCalls := cr.toolCalls
              finishReason := cr.finishReason
              message := buildAssistantMessage cr.text cr.toolCalls } }
    | .error e =>
      localStreamCatch input provider spanId traceId ps.chunks latencyMs abortedFlag e
  | some e =>
    localStreamCatch input provider spanId traceId ps.chunks latencyMs abortedFlag e

/-- Environment of one streaming `runLocal` call: the SDK run, whether
`aborted || signal.aborted` held when the catch block ran, the measured
latency, the collaborator outcomes and the generated ids. -/
structure StreamEnv where
  sdkRun : SdkRun
  abortedFlag : Bool
  latencyMs : Nat
  resolved : Except TraciaError LLMProvider
  apiKey : Except TraciaError String
  genSpanId : String
  genTraceId : String
deriving DecidableEq, Repr

/-- src/index.ts `runLocalStreaming` (lines 311-346) followed by a full
consumption of the returned stream: validation and span-id handling throw
synchronously (`.error`); otherwise the call produces a stream whose
consumed outcome is returned. -/
def runLocalStreaming (input : RunLocalInput) (env : StreamEnv) :
    Except TraciaError LocalStreamOutcome :=
  match validateRunLocalInput input with
  | some e => .error e
  | none =>
    if spanIdRejected input then .error invalidSpanIdError
    else
      let doTrace := sendTraceEnabled input
      let spanId := if doTrace then strOr input.spanId env.genSpanId else ""
      let traceId := if doTrace then strOr input.traceId env.genTraceId else ""
      match env.resolved with
      | .error e => .error e
      | .ok provider =>
        match env.apiKey with
        | .error e => .error e
        | .ok _ =>
          .ok (createLocalStream input provider spanId traceId
            (aiSdkStream provider input.model env.sdkRun) env.latencyMs env.abortedFlag)

/-! ### Concrete witness data -/

/-- A minimal valid input for witness instantiations. -/
def wInput : RunLocalInput :=
  { model := "gpt-4o"
    messages := [{ role := .user, content := .str "Hi" }] }

/-- A streaming environment whose SDK run completes successfully after two
text deltas. -/
def wStreamEnvOk : StreamEnv :=
  { sdkRun :=
      { events := [.textDelta "He", .otherEvent, .textDelta "llo"]
        ending := .completed ⟨10, 5, 15⟩ [] (some "stop") }
    abortedFlag := false
    latencyMs := 7
    resolved := .ok .OPENAI
    apiKey := .ok "key"
    genSpanId := "sp_0000000000000001"
    genTraceId := "tr_0000000000000001" }

/-- A streaming environment whose SDK run is aborted after one delta. -/
def wStreamEnvAborted : StreamEnv :=
  { sdkRun :=
      { events := [.textDelta "Hel"]
        ending := .abortError }
    abortedFlag := true
    latencyMs := 4
    resolved := .ok .OPENAI
    apiKey := .ok "key"
    genSpanId := "sp_0000000000000002"
    genTraceId := "tr_0000000000000002" }

/-- A non-streaming environment with a successful completion. -/
def wRunEnvOk : RunEnv :=
  { resolved := .ok .OPENAI
    apiKey := .ok "key"
    completion :=
      .ok
        { text := "Hi!"
          inputTokens := 10
          outputTokens := 5
          totalTokens := 15
          toolCalls := []
          finishReason := .stop
          provider := .OPENAI }
    latencyMs := 12
    genSpanId := "sp_000000000000000a"
    genTraceId := "tr_000000000000000a" }

/-- A non-streaming environment whose provider call fails. -/
def wRunEnvErr : RunEnv :=
  { wRunEnvOk with
    completion := .error { code := .PROVIDER_ERROR, message := "upstream 500" } }

/-- A second successful environment, used as the second session call. -/
def wRunEnvOk2 : RunEnv :=
  { wRunEnvOk with
    genSpanId := "sp_000000000000000b"
    genTraceId := "tr_000000000000000b" }

/-! ## Proofs

General lemmas about the interpolation scanner. -/

theorem splitPlaceholder_length {cs key rest : List Char}
    (h : splitPlaceholder cs = some (key, rest)) :
    rest.length + 2 ≤ cs.length := by
  unfold splitPlaceholder at h
  split at h
  case h_1 rest0 heq =>
    dsimp only at h
    split at h
    · exact absurd h (by simp)
    · have hk := Option.some.inj h
      have hlen := congrArg List.length (List.takeWhile_append_dropWhile (p := isWordChar) (l := cs))
      rw [List.length_append, heq] at hlen
      have : rest0 = rest := congrArg Prod.snd hk
      subst this
      simp at hlen
      omega
  case h_2 => exact absurd h (by simp)

theorem interpGo_succ_nonbrace (vars : Vars) (f : Nat) (c : Char) (cs : List Char)
    (hc : c ≠ '\x7b') :
    interpGo vars (f + 1) (c :: cs) = c :: interpGo vars f cs := by
  cases cs with
  | nil => simp [interpGo, hc]
  | cons c2 cs2 => simp [interpGo, hc]

theorem interpGo_succ_brace (vars : Vars) (f : Nat) (cs2 : List Char) :
    interpGo vars (f + 1) ('\x7b' :: '\x7b' :: cs2) =
      match splitPlaceholder cs2 with
      | some (key, rest2) => substFor vars key ++ interpGo vars f rest2
      | none => '\x7b' :: interpGo vars f ('\x7b' :: cs2) := by
  simp [interpGo]

theorem interpGo_succ_brace_single (vars : Vars) (f : Nat) (c2 : Char) (cs2 : List Char)
    (hc2 : c2 ≠ '\x7b') :
    interpGo vars (f + 1) ('\x7b' :: c2 :: cs2) = '\x7b' :: interpGo vars f (c2 :: cs2) := by
  simp [interpGo, hc2]

theorem interpGo_succ_brace_nil (vars : Vars) (f : Nat) :
    interpGo vars (f + 1) ['\x7b'] = ['\x7b'] := by
  have h0 : interpGo vars f [] = [] := by cases f <;> rfl
  simp [interpGo, h0]

theorem interpGo_nil (vars : Vars) (f : Nat) : interpGo vars f [] = [] := by
  cases f <;> rfl

theorem interpGo_fuel (vars : Vars) :
    ∀ f1 : Nat, ∀ cs : List Char, ∀ f2 : Nat,
      cs.length ≤ f1 → cs.length ≤ f2 →
        interpGo vars f1 cs = interpGo vars f2 cs := by
  intro f1
  induction f1 with
  | zero =>
    intro cs f2 h1 _
    have hcs : cs = [] := List.length_eq_zero.mp (Nat.le_zero.mp h1)
    subst hcs
    rw [interpGo_nil, interpGo_nil]
  | succ f ih =>
    intro cs f2 h1 h2
    cases cs with
    | nil => rw [interpGo_nil, interpGo_nil]
    | cons c cs =>
      cases f2 with
      | zero => simp at h2
      | succ g =>
        have hcs : cs.length ≤ f := by simp at h1; omega
        have hcs2 : cs.length ≤ g := by simp at h2; omega
        by_cases hc : c = '\x7b'
        · subst hc
          cases cs with
          | nil => rw [interpGo_succ_brace_nil, interpGo_succ_brace_nil]
          | cons c2 cs2 =>
            by_cases hc2 : c2 = '\x7b'
            · subst hc2
              rw [interpGo_succ_brace, interpGo_succ_brace]
              cases hs : splitPlaceholder cs2 with
              | none =>
                simp only []
                rw [ih ('\x7b' :: cs2) g hcs hcs2]
              | some kr =>
                obtain ⟨key, rest2⟩ := kr
                have hr : rest2.length + 2 ≤ cs2.length := splitPlaceholder_length hs
                simp only []
                rw [ih rest2 g (by simp at hcs; omega) (by simp at hcs2; omega)]
            · rw [interpGo_succ_brace_single vars f c2 cs2 hc2,
                interpGo_succ_brace_single vars g c2 cs2 hc2,
                ih (c2 :: cs2) g hcs hcs2]
        · rw [interpGo_succ_nonbrace vars f c cs hc,
            interpGo_succ_nonbrace vars g c cs hc, ih cs g hcs hcs2]

theorem interpChars_cons_ne (vars : Vars) (c : Char) (cs : List Char)
    (hc : c ≠ '\x7b') :
    interpChars vars (c :: cs) = c :: interpChars vars cs := by
  unfold interpChars
  simpa using interpGo_succ_nonbrace vars cs.length c cs hc

theorem interpChars_append_nolb (vars : Vars) (s t : List Char)
    (hs : ∀ c ∈ s, c ≠ '\x7b') :
    interpChars vars (s ++ t) = s ++ interpChars vars t := by
  induction s with
  | nil => simp
  | cons c s ih =>
    have hc : c ≠ '\x7b' := hs c (by simp)
    rw [List.cons_append, interpChars_cons_ne vars c (s ++ t) hc,
      ih (fun d hd => hs d (by simp [hd]))]
    simp

theorem takeWhile_all_append (p : Char → Bool) (k : List Char) (x : Char)
    (t : List Char) (hw : ∀ c ∈ k, p c = true) (hx : p x = false) :
    (k ++ x :: t).takeWhile p = k ∧ (k ++ x :: t).dropWhile p = x :: t := by
  induction k with
  | nil => simp [List.takeWhile, List.dropWhile, hx]
  | cons c k ih =>
    have hc : p c = true := hw c (by simp)
    have ih2 := ih (fun d hd => hw d (by simp [hd]))
    simp [List.takeWhile, List.dropWhile, hc, ih2.1, ih2.2]

theorem splitPlaceholder_spec (k t : List Char) (hk : k ≠ [])
    (hw : ∀ c ∈ k, isWordChar c = true) :
    splitPlaceholder (k ++ '\x7d' :: '\x7d' :: t) = some (k, t) := by
  have hbr : isWordChar '\x7d' = false := by decide
  have h := takeWhile_all_append isWordChar k '\x7d' ('\x7d' :: t) hw hbr
  unfold splitPlaceholder
  rw [h.1, h.2]
  simp [List.isEmpty_iff, hk]

theorem interpChars_placeholder (vars : Vars) (k t : List Char) (hk : k ≠ [])
    (hw : ∀ c ∈ k, isWordChar c = true) :
    interpChars vars (placeholderLit k ++ t) =
      substFor vars k ++ interpChars vars t := by
  unfold interpChars placeholderLit
  have hshape :
      ('\x7b' :: '\x7b' :: (k ++ ['\x7d', '\x7d']) ++ t) =
        ('\x7b' :: '\x7b' :: (k ++ '\x7d' :: '\x7d' :: t)) := by simp
  rw [hshape]
  have hlen : ('\x7b' :: '\x7b' :: (k ++ '\x7d' :: '\x7d' :: t)).length =
      (k.length + t.length + 3) + 1 := by simp; omega
  rw [hlen, interpGo_succ_brace, splitPlaceholder_spec k t hk hw]
  simp only []
  rw [interpGo_fuel vars (k.length + t.length + 3) t t.length (by omega) (by omega)]

theorem renderTemplate_cons (p : TemplatePiece) (ps : List TemplatePiece) :
    renderTemplate (p :: ps) = renderPiece p ++ renderTemplate ps := by
  simp [renderTemplate]

theorem renderSubst_cons (vars : Vars) (p : TemplatePiece) (ps : List TemplatePiece) :
    renderSubst vars (p :: ps) = renderSubstPiece vars p ++ renderSubst vars ps := by
  simp [renderSubst]

theorem interpChars_renderTemplate (vars : Vars) (ps : List TemplatePiece)
    (hps : ∀ p ∈ ps, goodPiece p) :
    interpChars vars (renderTemplate ps) = renderSubst vars ps := by
  induction ps with
  | nil => simp [renderTemplate, renderSubst, interpChars, interpGo_nil]
  | cons p ps ih =>
    have hp : goodPiece p := hps p (by simp)
    have ih2 := ih (fun q hq => hps q (by simp [hq]))
    rw [renderTemplate_cons, renderSubst_cons]
    cases p with
    | lit s =>
      have hs : ∀ c ∈ s.data, c ≠ '\x7b' := by
        intro c hc heq
        subst heq
        exact hp hc
      rw [show renderPiece (TemplatePiece.lit s) = s.data from rfl,
        show renderSubstPiece vars (TemplatePiece.lit s) = s.data from rfl,
        interpChars_append_nolb vars s.data (renderTemplate ps) hs, ih2]
    | hole k =>
      obtain ⟨hk, hw⟩ := hp
      rw [show renderPiece (TemplatePiece.hole k) = placeholderLit k.data from rfl,
        show renderSubstPiece vars (TemplatePiece.hole k) = substFor vars k.data from rfl,
        interpChars_placeholder vars k.data (renderTemplate ps) hk hw, ih2]

/-- C6 counterexample: the claim says every occurrence whose key is
absent from the map is left as the literal token, but `variables[key]` is
plain property access and `toString` — a valid `\w+` key absent from the
(empty) map — resolves to the inherited `Object.prototype.toString`
function, which is not `undefined`, so `?? match` does not fire and the
token is replaced by the function's stringification instead of being left
literal. -/
theorem absent_proto_key_is_substituted :
    interpolateMessages (some ([] : Vars))
        [{ role := .user, content := .str "\x7b\x7btoString\x7d\x7d" }] =
      [{ role := .user,
         content := .str "function toString() \x7b [native code] \x7d" }]
    ∧ (MessageContent.str "function toString() \x7b [native code] \x7d" ≠
        MessageContent.str "\x7b\x7btoString\x7d\x7d")
    ∧ List.lookup "toString" ([] : Vars) = none := by
  refine ⟨?_, ?_, rfl⟩
  · decide
  · decide

/-- C6 amended: for every message list and every variable map,
interpolation replaces every `placeholder token whose key is an own
property of the map by the mapped value — everywhere it appears in string
content and in text parts — and raises no error (every function involved
is total).  A token whose key is absent from the map is left as the
literal token exactly when the key is not an `Object.prototype` member
name; for an absent key that is one (`toString`, `constructor`,
`hasOwnProperty`, `__proto__`, ...), the plain property access finds the
inherited member and the token is replaced by that value's
stringification.  The string-level behaviour is stated through the
template decomposition: a string assembled from brace-free literal chunks
and `placeholder tokens is mapped to the same assembly with every hole
rewritten by `substFor`. -/
theorem interpolation_amended_proto_aware
    (v : Vars) (ps : List TemplatePiece) (hps : ∀ p ∈ ps, goodPiece p)
    (msgs : List LocalPromptMessage) (m : LocalPromptMessage) :
    interpolateString v (String.mk (renderTemplate ps)) = String.mk (renderSubst v ps)
    ∧ interpolateMessages (some v) msgs = msgs.map (interpolateMessage v)
    ∧ (∀ s, m.content = .str s →
        (interpolateMessage v m).content = .str (interpolateString v s))
    ∧ (∀ parts, m.role ≠ .tool → m.content = .parts parts →
        (interpolateMessage v m).content =
          .parts (parts.map (interpolateContentPart v)))
    ∧ (∀ t, interpolateContentPart v (.text t) = .text (interpolateString v t))
    ∧ (∀ i n a, interpolateContentPart v (.tool_call i n a) = .tool_call i n a)
    ∧ (∀ k r : String, List.lookup k v = some r → substFor v k.data = r.data)
    ∧ (∀ k : String, List.lookup k v = none → k ∉ objectProtoProps →
        substFor v k.data = placeholderLit k.data)
    ∧ (∀ k : String, List.lookup k v = none → k ∈ objectProtoProps →
        substFor v k.data = (protoSubst k).data) := by
  refine ⟨?_, rfl, ?_, ?_, fun t => rfl, fun i n a => rfl, ?_, ?_, ?_⟩
  · unfold interpolateString
    exact congrArg String.mk (interpChars_renderTemplate v ps hps)
  · intro s hs
    unfold interpolateMessage
    rw [hs]
  · intro parts hrole hcont
    unfold interpolateMessage
    rw [hcont]
    simp [hrole]
  · intro k r hk
    have hmk : String.mk k.data = k := rfl
    unfold substFor jsVarLookup
    rw [hmk, hk]
  · intro k hk hmem
    have hmk : String.mk k.data = k := rfl
    unfold substFor jsVarLookup
    rw [hmk, hk]
    simp [hmem]
  · intro k hk hmem
    have hmk : String.mk k.data = k := rfl
    unfold substFor jsVarLookup
    rw [hmk, hk]
    simp [hmem]

/-- Witness for the amended C6 at concrete inputs: a template mixing a
present key, an absent plain key (left literal) and the absent prototype
key `toString` (substituted by the inherited member's stringification). -/
theorem interpolation_amended_proto_aware_witness :
    interpolateString [("name", "Ada")]
        (String.mk (renderTemplate
          [.lit "Hello ", .hole "name", .lit "! ", .hole "missing"]))
      = String.mk (renderSubst [("name", "Ada")]
          [.lit "Hello ", .hole "name", .lit "! ", .hole "missing"])
    ∧ substFor [("name", "Ada")] "missing".data = placeholderLit "missing".data
    ∧ substFor [("name", "Ada")] "toString".data = (protoSubst "toString").data := by
  refine ⟨?_, ?_, ?_⟩
  · exact (interpolation_amended_proto_aware [("name", "Ada")]
      [.lit "Hello ", .hole "name", .lit "! ", .hole "missing"] (by decide)
      [] { role := .user, content := .str "Hi" }).1
  · exact (interpolation_amended_proto_aware [("name", "Ada")] [] (by decide)
      [] { role := .user, content := .str "Hi" }).2.2.2.2.2.2.2.1
      "missing" (by decide) (by decide)
  · exact (interpolation_amended_proto_aware [("name", "Ada")] [] (by decide)
      [] { role := .user, content := .str "Hi" }).2.2.2.2.2.2.2.2
      "toString" (by decide) (by decide)

/-- C7 counterexample: the claim says interpolation never substitutes
inside tool-role messages, but the string-content branch of
`interpolateMessages` runs before the tool-role guard (src/index.ts lines
941-953), so a tool message with string content and a mapped key IS
rewritten: with variables `k := v`, the tool message whose content is the
token for key `k` comes back with content `"v"`, not unchanged. -/
theorem tool_message_string_content_is_interpolated :
    interpolateMessages (some [("k", "v")])
        [{ role := .tool, content := .str (String.mk (placeholderLit "k".data)),
           toolCallId := some "call_1" }] =
      [{ role := .tool, content := .str "v", toolCallId := some "call_1" }]
    ∧ (MessageContent.str "v" ≠
        MessageContent.str (String.mk (placeholderLit "k".data))) := by
  constructor
  · decide
  · decide

/-- C7 amended: interpolation does not substitute inside tool-role
messages whose content is a part list — they are returned unchanged — but
a tool-role message with string content (the only well-formed kind) is
interpolated exactly like any other string content. -/
theorem tool_message_interpolation_amended (v : Vars) (m : LocalPromptMessage)
    (hrole : m.role = .tool) :
    (∀ ps, m.content = .parts ps → interpolateMessage v m = m)
    ∧ (∀ s, m.content = .str s →
        interpolateMessage v m = { m with content := .str (interpolateString v s) }) := by
  constructor
  · intro ps hcont
    unfold interpolateMessage
    rw [hcont]
    simp [hrole]
  · intro s hcont
    unfold interpolateMessage
    rw [hcont]

/-- Witness for the amended C7 at concrete tool messages. -/
theorem tool_message_interpolation_amended_witness :
    interpolateMessage [("k", "v")]
        { role := .tool, content := .parts [.text "x"], toolCallId := some "c" } =
      { role := .tool, content := .parts [.text "x"], toolCallId := some "c" } := by
  exact (tool_message_interpolation_amended [("k", "v")]
    { role := .tool, content := .parts [.text "x"], toolCallId := some "c" } rfl).1
    [.text "x"] rfl

/-- C8 counterexample: the claim says span-id validation accepts exactly
`sp_` + 16 hex and rejects any other prefix, but `isValidSpanIdFormat`
also tests the candidate against the legacy trace-id regex, so the
`tr_`-prefixed string below — which does not start with `sp_` — is
accepted. -/
theorem span_id_validation_accepts_tr_prefix :
    isValidSpanIdFormat "tr_0123456789abcdef" = true
    ∧ ("tr_0123456789abcdef".data.take 3 ≠ "sp_".data) := by
  constructor
  · decide
  · decide

theorem matchesIdRegex_iff (p1 p2 : Char) (s : String) :
    matchesIdRegex p1 p2 s = true ↔
      ∃ c1 c2 rest, s.data = c1 :: c2 :: '_' :: rest
        ∧ c1.toLower = p1 ∧ c2.toLower = p2
        ∧ rest.length = 16 ∧ ∀ c ∈ rest, isHexDigit c = true := by
  unfold matchesIdRegex
  cases hd : s.data with
  | nil => simp [hd]
  | cons c1 t1 =>
    cases t1 with
    | nil => simp [hd]
    | cons c2 t2 =>
      cases t2 with
      | nil => simp [hd]
      | cons c3 rest =>
        simp only [Bool.and_eq_true, decide_eq_true_eq, List.all_eq_true, hd]
        constructor
        · rintro ⟨⟨⟨⟨h1, h2⟩, h3⟩, h4⟩, h5⟩
          exact ⟨c1, c2, rest, by rw [h3], h1, h2, h4, h5⟩
        · rintro ⟨a, b, r, heq, h1, h2, h4, h5⟩
          obtain ⟨rfl, rfl, rfl, rfl⟩ :
              c1 = a ∧ c2 = b ∧ c3 = '_' ∧ rest = r := by
            have := List.cons.inj heq
            have h2t := List.cons.inj this.2
            have h3t := List.cons.inj h2t.2
            exact ⟨this.1, h2t.1, h3t.1, h3t.2⟩
          exact ⟨⟨⟨⟨h1, h2⟩, rfl⟩, h4⟩, h5⟩

theorem runLocal_invalid_span_throws (input : RunLocalInput) (env : RunEnv)
    (hval : validateRunLocalInput input = none)
    (hrej : spanIdRejected input = true) :
    runLocalNonStreaming input env = [.threw invalidSpanIdError] := by
  unfold runLocalNonStreaming
  rw [hval, hrej]
  simp

/-- C8 amended: span-id validation accepts exactly the strings that are,
ASCII-case-insensitively, `sp_` or `tr_` followed by 16 hexadecimal
characters (the legacy trace-id form is accepted wherever a span id is
validated); every other length, prefix or non-hex suffix character is
rejected.  A caller-supplied spanId failing this validation (with tracing
enabled) makes `runLocal` throw an `INVALID_REQUEST` error before any
provider call or span scheduling — the event list is exactly the throw. -/
theorem span_id_validation_amended (s : String) (input : RunLocalInput)
    (env : RunEnv) (sid : String)
    (hsp : input.spanId = some sid) (hsend : sendTraceEnabled input = true)
    (hval : validateRunLocalInput input = none)
    (hsid : sid ≠ "") (hbad : isValidSpanIdFormat sid = false) :
    (isValidSpanIdFormat s = true ↔
      ∃ c1 c2 rest, s.data = c1 :: c2 :: '_' :: rest
        ∧ ((c1.toLower = 's' ∧ c2.toLower = 'p') ∨ (c1.toLower = 't' ∧ c2.toLower = 'r'))
        ∧ rest.length = 16 ∧ ∀ c ∈ rest, isHexDigit c = true)
    ∧ invalidSpanIdError.code = .INVALID_REQUEST
    ∧ runLocalNonStreaming input env = [.threw invalidSpanIdError] := by
  refine ⟨?_, rfl, ?_⟩
  · unfold isValidSpanIdFormat
    rw [Bool.or_eq_true, matchesIdRegex_iff, matchesIdRegex_iff]
    constructor
    · rintro (⟨c1, c2, rest, heq, h1, h2, h4, h5⟩ | ⟨c1, c2, rest, heq, h1, h2, h4, h5⟩)
      · exact ⟨c1, c2, rest, heq, Or.inl ⟨h1, h2⟩, h4, h5⟩
      · exact ⟨c1, c2, rest, heq, Or.inr ⟨h1, h2⟩, h4, h5⟩
    · rintro ⟨c1, c2, rest, heq, h12 | h12, h4, h5⟩
      · exact Or.inl ⟨c1, c2, rest, heq, h12.1, h12.2, h4, h5⟩
      · exact Or.inr ⟨c1, c2, rest, heq, h12.1, h12.2, h4, h5⟩
  · apply runLocal_invalid_span_throws input env hval
    unfold spanIdRejected
    rw [hsend, hsp]
    simp [hsid, hbad]

/-- Witness for the amended C8: `sp_1234567890abcdef` is accepted, and a
call with the malformed spanId `bad-id` throws the invalid-format error. -/
theorem span_id_validation_amended_witness :
    isValidSpanIdFormat "sp_1234567890abcdef" = true
    ∧ runLocalNonStreaming { wInput with spanId := some "bad-id" } wRunEnvOk =
        [.threw invalidSpanIdError] := by
  have h := span_id_validation_amended "sp_1234567890abcdef"
    { wInput with spanId := some "bad-id" } wRunEnvOk "bad-id"
    rfl (by decide) (by decide) (by decide) (by decide)
  refine ⟨?_, h.2.2⟩
  rw [h.1]
  exact ⟨'s', 'p', "1234567890abcdef".data, by decide, by decide, by decide, by decide⟩

theorem spanIdRejected_of_none (input : RunLocalInput) (h : input.spanId = none) :
    spanIdRejected input = false := by
  unfold spanIdRejected
  rw [h]
  simp

theorem runLocal_error_events (input : RunLocalInput) (env : RunEnv)
    (provider : LLMProvider) (key : String) (err : TraciaError)
    (hval : validateRunLocalInput input = none)
    (hrej : spanIdRejected input = false)
    (hsend : sendTraceEnabled input = true)
    (hres : env.resolved = .ok provider)
    (hkey : env.apiKey = .ok key)
    (hcomp : env.completion = .error err)
    (hspan : strOr input.spanId env.genSpanId ≠ "") :
    runLocalNonStreaming input env =
      [.calledProvider,
       .scheduledSpan (errorSpanPayload input env provider err
         (strOr input.spanId env.genSpanId) (strOr input.traceId env.genTraceId)),
       .threw err] := by
  unfold runLocalNonStreaming
  rw [hval]
  simp [hrej, hsend, hres, hkey, hcomp, hspan]

theorem runLocal_success_events (input : RunLocalInput) (env : RunEnv)
    (provider : LLMProvider) (key : String) (cr : CompletionResult)
    (hval : validateRunLocalInput input = none)
    (hrej : spanIdRejected input = false)
    (hsend : sendTraceEnabled input = true)
    (hres : env.resolved = .ok provider)
    (hkey : env.apiKey = .ok key)
    (hcomp : env.completion = .ok cr)
    (hspan : strOr input.spanId env.genSpanId ≠ "") :
    runLocalNonStreaming input env =
      [.calledProvider,
       .scheduledSpan (successSpanPayload input env cr
         (strOr input.spanId env.genSpanId) (strOr input.traceId env.genTraceId)),
       .returned (successRunResult input env cr
         (strOr input.spanId env.genSpanId) (strOr input.traceId env.genTraceId))] := by
  unfold runLocalNonStreaming
  rw [hval]
  simp [hrej, hsend, hres, hkey, hcomp, hspan]

/-- C5: if a traced non-streaming call fails at the provider, the call
schedules a span — before throwing — whose status is ERROR, whose error
text is the thrown error's message, and whose latency is the single
wall-clock measurement taken around the call; the error then thrown is the
very error recorded.  On success the same latency value is reported both
in the scheduled span and in the returned result, so latency reporting is
identical on success and failure. -/
theorem provider_error_recorded_then_thrown
    (input : RunLocalInput) (envE envS : RunEnv) (provider : LLMProvider)
    (key : String) (err : TraciaError) (cr : CompletionResult)
    (hval : validateRunLocalInput input = none)
    (hrej : spanIdRejected input = false)
    (hsend : sendTraceEnabled input = true)
    (hresE : envE.resolved = .ok provider) (hkeyE : envE.apiKey = .ok key)
    (hcompE : envE.completion = .error err)
    (hspanE : strOr input.spanId envE.genSpanId ≠ "")
    (hresS : envS.resolved = .ok provider) (hkeyS : envS.apiKey = .ok key)
    (hcompS : envS.completion = .ok cr)
    (hspanS : strOr input.spanId envS.genSpanId ≠ "") :
    (runLocalNonStreaming input envE =
      [.calledProvider,
       .scheduledSpan (errorSpanPayload input envE provider err
         (strOr input.spanId envE.genSpanId) (strOr input.traceId envE.genTraceId)),
       .threw err])
    ∧ (errorSpanPayload input envE provider err
        (strOr input.spanId envE.genSpanId) (strOr input.traceId envE.genTraceId)).status = .ERROR
    ∧ (errorSpanPayload input envE provider err
        (strOr input.spanId envE.genSpanId) (strOr input.traceId envE.genTraceId)).error = some err.message
    ∧ (errorSpanPayload input envE provider err
        (strOr input.spanId envE.genSpanId) (strOr input.traceId envE.genTraceId)).latencyMs = envE.latencyMs
    ∧ (runLocalNonStreaming input envS =
      [.calledProvider,
       .scheduledSpan (successSpanPayload input envS cr
         (strOr input.spanId envS.genSpanId) (strOr input.traceId envS.genTraceId)),
       .returned (successRunResult input envS cr
         (strOr input.spanId envS.genSpanId) (strOr input.traceId envS.genTraceId))])
    ∧ (successSpanPayload input envS cr
        (strOr input.spanId envS.genSpanId) (strOr input.traceId envS.genTraceId)).latencyMs = envS.latencyMs
    ∧ (successRunResult input envS cr
        (strOr input.spanId envS.genSpanId) (strOr input.traceId envS.genTraceId)).latencyMs = envS.latencyMs :=
  ⟨runLocal_error_events input envE provider key err hval hrej hsend hresE hkeyE hcompE hspanE,
   rfl, rfl, rfl,
   runLocal_success_events input envS provider key cr hval hrej hsend hresS hkeyS hcompS hspanS,
   rfl, rfl⟩

/-- Witness for C5: a concrete failing call and a concrete successful
call through the same input. -/
theorem provider_error_recorded_then_thrown_witness :
    runLocalNonStreaming wInput wRunEnvErr =
      [.calledProvider,
       .scheduledSpan (errorSpanPayload wInput wRunEnvErr .OPENAI
         { code := .PROVIDER_ERROR, message := "upstream 500" }
         "sp_000000000000000a" "tr_000000000000000a"),
       .threw { code := .PROVIDER_ERROR, message := "upstream 500" }] :=
  (provider_error_recorded_then_thrown wInput wRunEnvErr wRunEnvOk .OPENAI "key"
    { code := .PROVIDER_ERROR, message := "upstream 500" }
    { text := "Hi!", inputTokens := 10, outputTokens := 5, totalTokens := 15,
      toolCalls := [], finishReason := .stop, provider := .OPENAI }
    (by decide) (by decide) (by decide) rfl rfl rfl (by decide)
    rfl rfl rfl (by decide)).1

theorem runLocal_noTrace_events (input : RunLocalInput) (env : RunEnv)
    (hsend : sendTraceEnabled input = false) :
    runLocalNonStreaming input env =
      match validateRunLocalInput input with
      | some e => [.threw e]
      | none =>
        match env.resolved with
        | .error e => [.threw e]
        | .ok _ =>
          match env.apiKey with
          | .error e => [.threw e]
          | .ok _ =>
            match env.completion with
            | .error err => [.calledProvider, .threw err]
            | .ok cr => [.calledProvider, .returned (successRunResult input env cr "" "")] := by
  have hrej : spanIdRejected input = false := by
    unfold spanIdRejected
    rw [hsend]
    simp
  unfold runLocalNonStreaming
  cases hval : validateRunLocalInput input with
  | some e => rfl
  | none =>
    simp only [hrej, Bool.false_eq_true, if_false, hsend]
    cases hres : env.resolved with
    | error e => rfl
    | ok provider =>
      cases hkey : env.apiKey with
      | error e => rfl
      | ok key =>
        cases hcomp : env.completion with
        | error err => simp
        | ok cr => simp

/-- C10: a `runLocal` call with `sendTrace: false` never schedules a span
(the pending-span map is never touched), returns empty-string `spanId` and
`traceId` whenever it returns, and a session call that opts out this way
leaves the session state untouched. -/
theorem sendTrace_false_is_traceless (input : RunLocalInput) (env : RunEnv)
    (hs : input.sendTrace = some false) :
    (∀ p, RunEvent.scheduledSpan p ∉ runLocalNonStreaming input env)
    ∧ (∀ r, runReturn (runLocalNonStreaming input env) = some r →
        r.spanId = "" ∧ r.traceId = "")
    ∧ (∀ st, (sessionRunLocalNonStreaming st input env).1 = st) := by
  have hsend : sendTraceEnabled input = false := by
    unfold sendTraceEnabled
    rw [hs]
    simp
  refine ⟨?_, ?_, ?_⟩
  · intro p
    rw [runLocal_noTrace_events input env hsend]
    cases validateRunLocalInput input with
    | some e => simp
    | none =>
      cases env.resolved with
      | error e => simp
      | ok provider =>
        cases env.apiKey with
        | error e => simp
        | ok key =>
          cases env.completion with
          | error err => simp
          | ok cr => simp
  · intro r hr
    rw [runLocal_noTrace_events input env hsend] at hr
    cases hval : validateRunLocalInput input with
    | some e => rw [hval] at hr; simp [runReturn] at hr
    | none =>
      rw [hval] at hr
      cases hres : env.resolved with
      | error e => rw [hres] at hr; simp [runReturn] at hr
      | ok provider =>
        rw [hres] at hr
        cases hkey : env.apiKey with
        | error e => rw [hkey] at hr; simp [runReturn] at hr
        | ok key =>
          rw [hkey] at hr
          cases hcomp : env.completion with
          | error err => rw [hcomp] at hr; simp [runReturn] at hr
          | ok cr =>
            rw [hcomp] at hr
            simp [runReturn] at hr
            subst hr
            exact ⟨rfl, rfl⟩
  · intro st
    unfold sessionRunLocalNonStreaming
    rw [runLocal_noTrace_events
      { input with traceId := st.traceId, parentSpanId := st.lastSpanId } env hsend]
    cases validateRunLocalInput
        { input with traceId := st.traceId, parentSpanId := st.lastSpanId } with
    | some e => simp [runReturn]
    | none =>
      cases env.resolved with
      | error e => simp [runReturn]
      | ok provider =>
        cases env.apiKey with
        | error e => simp [runReturn]
        | ok key =>
          cases env.completion with
          | error err => simp [runReturn]
          | ok cr => simp [runReturn, updateSessionState, successRunResult]

/-- Witness for C10 at a concrete opted-out call. -/
theorem sendTrace_false_is_traceless_witness :
    (∀ p, RunEvent.scheduledSpan p ∉
      runLocalNonStreaming { wInput with sendTrace := some false } wRunEnvOk)
    ∧ (∀ r, runReturn (runLocalNonStreaming
        { wInput with sendTrace := some false } wRunEnvOk) = some r →
          r.spanId = "" ∧ r.traceId = "")
    ∧ (∀ st, (sessionRunLocalNonStreaming st
        { wInput with sendTrace := some false } wRunEnvOk).1 = st) :=
  sendTrace_false_is_traceless { wInput with sendTrace := some false } wRunEnvOk rfl

theorem sessionRun_success (st : SessionState) (input : RunLocalInput) (env : RunEnv)
    (provider : LLMProvider) (key : String) (cr : CompletionResult)
    (hval : validateRunLocalInput input = none)
    (hsend : sendTraceEnabled input = true)
    (hsp : input.spanId = none)
    (hres : env.resolved = .ok provider) (hkey : env.apiKey = .ok key)
    (hcomp : env.completion = .ok cr)
    (hgen : env.genSpanId ≠ "") :
    sessionRunLocalNonStreaming st input env =
      (updateSessionState st env.genSpanId (strOr st.traceId env.genTraceId),
       [.calledProvider,
        .scheduledSpan (successSpanPayload
          ({ input with traceId := st.traceId, parentSpanId := st.lastSpanId }) env cr
          env.genSpanId (strOr st.traceId env.genTraceId)),
        .returned (successRunResult
          ({ input with traceId := st.traceId, parentSpanId := st.lastSpanId }) env cr
          env.genSpanId (strOr st.traceId env.genTraceId))]) := by
  have hsp' :
      RunLocalInput.spanId
        { input with traceId := st.traceId, parentSpanId := st.lastSpanId } = none :=
    hsp
  have hspan :
      strOr
        (RunLocalInput.spanId
          { input with traceId := st.traceId, parentSpanId := st.lastSpanId })
        env.genSpanId ≠ "" := by
    rw [hsp']
    simpa [strOr] using hgen
  have hev := runLocal_success_events
    { input with traceId := st.traceId, parentSpanId := st.lastSpanId } env provider key cr
    hval (spanIdRejected_of_none _ hsp') hsend hres hkey hcomp hspan
  unfold sessionRunLocalNonStreaming
  rw [hev]
  simp [runReturn, successRunResult, hsp, strOr]

/-- C9: two sequential successful traced session calls with no
caller-supplied identifiers: the second call's scheduled span carries
`parentSpanId` equal to the span id the first call returned, and the same
`traceId` as the first span; after each call the session adopts the
produced span id as its last span id, and it adopts a produced trace id
only when it had none. -/
theorem session_chains_spans
    (input1 input2 : RunLocalInput) (env1 env2 : RunEnv)
    (p1 p2 : LLMProvider) (k1 k2 : String) (cr1 cr2 : CompletionResult)
    (hval1 : validateRunLocalInput input1 = none)
    (hsend1 : sendTraceEnabled input1 = true)
    (hsp1 : input1.spanId = none)
    (hres1 : env1.resolved = .ok p1) (hkey1 : env1.apiKey = .ok k1)
    (hcomp1 : env1.completion = .ok cr1)
    (hgs1 : env1.genSpanId ≠ "") (hgt1 : env1.genTraceId ≠ "")
    (hval2 : validateRunLocalInput input2 = none)
    (hsend2 : sendTraceEnabled input2 = true)
    (hsp2 : input2.spanId = none)
    (hres2 : env2.resolved = .ok p2) (hkey2 : env2.apiKey = .ok k2)
    (hcomp2 : env2.completion = .ok cr2)
    (hgs2 : env2.genSpanId ≠ "") :
    ∃ st1 ev1 st2 ev2 r1 sp1 r2 sp2,
      sessionRunLocalNonStreaming ⟨none, none⟩ input1 env1 = (st1, ev1)
      ∧ sessionRunLocalNonStreaming st1 input2 env2 = (st2, ev2)
      ∧ runReturn ev1 = some r1 ∧ runScheduled ev1 = some sp1
      ∧ runReturn ev2 = some r2 ∧ runScheduled ev2 = some sp2
      ∧ sp2.parentSpanId = some r1.spanId
      ∧ sp2.traceId = sp1.traceId
      ∧ st1.lastSpanId = some r1.spanId ∧ st1.traceId = some r1.traceId
      ∧ st2.lastSpanId = some r2.spanId ∧ st2.traceId = st1.traceId
      ∧ (∀ st s t, s ≠ "" → (updateSessionState st s t).lastSpanId = some s)
      ∧ (∀ st s t, optTruthy st.traceId = true →
          (updateSessionState st s t).traceId = st.traceId) := by
  have hA := sessionRun_success ⟨none, none⟩ input1 env1 p1 k1 cr1
    hval1 hsend1 hsp1 hres1 hkey1 hcomp1 hgs1
  have hB :
      sessionRunLocalNonStreaming ⟨none, none⟩ input1 env1 =
        (⟨some env1.genTraceId, some env1.genSpanId⟩,
         [.calledProvider,
          .scheduledSpan (successSpanPayload
            ({ input1 with traceId := none, parentSpanId := none }) env1 cr1
            env1.genSpanId env1.genTraceId),
          .returned (successRunResult
            ({ input1 with traceId := none, parentSpanId := none }) env1 cr1
            env1.genSpanId env1.genTraceId)]) := by
    rw [hA]
    simp [updateSessionState, strOr, optTruthy, hgs1, hgt1]
  have hC := sessionRun_success ⟨some env1.genTraceId, some env1.genSpanId⟩
    input2 env2 p2 k2 cr2 hval2 hsend2 hsp2 hres2 hkey2 hcomp2 hgs2
  have hD :
      sessionRunLocalNonStreaming ⟨some env1.genTraceId, some env1.genSpanId⟩
          input2 env2 =
        (⟨some env1.genTraceId, some env2.genSpanId⟩,
         [.calledProvider,
          .scheduledSpan (successSpanPayload
            ({ input2 with traceId := some env1.genTraceId, parentSpanId := some env1.genSpanId })
            env2 cr2 env2.genSpanId env1.genTraceId),
          .returned (successRunResult
            ({ input2 with traceId := some env1.genTraceId, parentSpanId := some env1.genSpanId })
            env2 cr2 env2.genSpanId env1.genTraceId)]) := by
    rw [hC]
    simp [updateSessionState, strOr, optTruthy, hgs2, hgt1]
  refine ⟨_, _, _, _,
    successRunResult ({ input1 with traceId := none, parentSpanId := none }) env1 cr1
      env1.genSpanId env1.genTraceId,
    successSpanPayload ({ input1 with traceId := none, parentSpanId := none }) env1 cr1
      env1.genSpanId env1.genTraceId,
    successRunResult ({ input2 with traceId := some env1.genTraceId, parentSpanId := some env1.genSpanId })
      env2 cr2 env2.genSpanId env1.genTraceId,
    successSpanPayload ({ input2 with traceId := some env1.genTraceId, parentSpanId := some env1.genSpanId })
      env2 cr2 env2.genSpanId env1.genTraceId,
    hB, hD, ?_, ?_, ?_, ?_, ?_, ?_, ?_, ?_, ?_, ?_, ?_, ?_⟩
  · simp [runReturn]
  · simp [runScheduled]
  · simp [runReturn]
  · simp [runScheduled]
  · simp [successSpanPayload, successRunResult]
  · simp [successSpanPayload]
  · simp [successRunResult]
  · simp [successRunResult]
  · simp [successRunResult]
  · simp
  · intro st s t hs
    simp [updateSessionState, hs]
  · intro st s t h
    by_cases hs : s = "" <;> simp [updateSessionState, hs, h]

/-- Witness for C9 at two concrete session calls. -/
theorem session_chains_spans_witness :
    ∃ st1 ev1 st2 ev2 r1 sp1 r2 sp2,
      sessionRunLocalNonStreaming ⟨none, none⟩ wInput wRunEnvOk = (st1, ev1)
      ∧ sessionRunLocalNonStreaming st1 wInput wRunEnvOk2 = (st2, ev2)
      ∧ runReturn ev1 = some r1 ∧ runScheduled ev1 = some sp1
      ∧ runReturn ev2 = some r2 ∧ runScheduled ev2 = some sp2
      ∧ sp2.parentSpanId = some r1.spanId
      ∧ sp2.traceId = sp1.traceId
      ∧ st1.lastSpanId = some r1.spanId ∧ st1.traceId = some r1.traceId
      ∧ st2.lastSpanId = some r2.spanId ∧ st2.traceId = st1.traceId
      ∧ (∀ st s t, s ≠ "" → (updateSessionState st s t).lastSpanId = some s)
      ∧ (∀ st s t, optTruthy st.traceId = true →
          (updateSessionState st s t).traceId = st.traceId) :=
  session_chains_spans wInput wInput wRunEnvOk wRunEnvOk2 .OPENAI .OPENAI "key" "key"
    { text := "Hi!", inputTokens := 10, outputTokens := 5, totalTokens := 15,
      toolCalls := [], finishReason := .stop, provider := .OPENAI }
    { text := "Hi!", inputTokens := 10, outputTokens := 5, totalTokens := 15,
      toolCalls := [], finishReason := .stop, provider := .OPENAI }
    (by decide) (by decide) rfl rfl rfl rfl (by decide) (by decide)
    (by decide) (by decide) rfl rfl rfl rfl (by decide)

/-! Span persistence manager proofs. -/

theorem pending_step (m : List String) (id : String) (hid : id ≠ "")
    (hlen : m.length ≤ MAX_PENDING_SPANS) (hni : "" ∉ m) :
    (scheduleSpanCreation m id).length ≤ MAX_PENDING_SPANS
    ∧ "" ∉ scheduleSpanCreation m id := by
  unfold scheduleSpanCreation
  by_cases hcap : MAX_PENDING_SPANS ≤ m.length
  · have hm : m ≠ [] := by
      intro h
      rw [h] at hcap
      simp [MAX_PENDING_SPANS] at hcap
    obtain ⟨o, rest, rfl⟩ := List.exists_cons_of_ne_nil hm
    have ho : o ≠ "" := by
      intro h
      exact hni (by simp [h])
    have hrest : "" ∉ rest := fun h => hni (by simp [h])
    simp only [hcap, if_true, List.head?_cons, ho, ne_eq, not_false_iff, if_pos,
      mapDelete, List.erase_cons_head]
    have hrl : rest.length + 1 ≤ MAX_PENDING_SPANS := by simpa using hlen
    constructor
    · unfold mapSet
      by_cases hmem : id ∈ rest
      · simp [hmem]
        omega
      · simp [hmem]
        omega
    · unfold mapSet
      by_cases hmem : id ∈ rest
      · simp [hmem, hrest]
      · simp [hmem, hrest, hid]
        intro h
        exact absurd h.symm hid
  · simp only [hcap, if_false]
    constructor
    · unfold mapSet
      by_cases hmem : id ∈ m
      · simpa [hmem] using hlen
      · simp [hmem]
        omega
    · unfold mapSet
      by_cases hmem : id ∈ m
      · simpa [hmem] using hni
      · simp [hmem, hni]
        intro h
        exact absurd h.symm hid

theorem settle_step (m : List String) (id : String)
    (hlen : m.length ≤ MAX_PENDING_SPANS) (hni : "" ∉ m) :
    (mapDelete m id).length ≤ MAX_PENDING_SPANS ∧ "" ∉ mapDelete m id := by
  unfold mapDelete
  constructor
  · exact le_trans (List.erase_sublist id m).length_le hlen
  · intro h
    exact hni ((List.erase_sublist id m).subset h)

theorem spanOps_fold_invariant (ops : List SpanOp)
    (hops : ∀ id, SpanOp.schedule id ∈ ops → id ≠ "") :
    ∀ m : List String, m.length ≤ MAX_PENDING_SPANS → "" ∉ m →
      (ops.foldl applySpanOp m).length ≤ MAX_PENDING_SPANS
      ∧ "" ∉ ops.foldl applySpanOp m := by
  induction ops with
  | nil => intro m hlen hni; exact ⟨hlen, hni⟩
  | cons op ops ih =>
    intro m hlen hni
    have hops2 : ∀ id, SpanOp.schedule id ∈ ops → id ≠ "" :=
      fun id hid => hops id (by simp [hid])
    cases op with
    | schedule id =>
      have hid : id ≠ "" := hops id (by simp)
      have hstep := pending_step m id hid hlen hni
      simpa using ih hops2 (scheduleSpanCreation m id) hstep.1 hstep.2
    | settle id =>
      have hstep := settle_step m id hlen hni
      simpa using ih hops2 (mapDelete m id) hstep.1 hstep.2

/-- C3: starting from the empty map, no sequence of `schedule` calls and
task settlements ever grows the pending map beyond `MAX_PENDING_SPANS`
(1,000) entries — the span ids the class ever schedules are nonempty,
which the hypothesis records; a `schedule` against a map at capacity
removes exactly the single oldest entry before inserting the new one and
raises nothing to its caller (the function is total); and a settling write
task removes exactly its own entry, whatever its outcome (`.finally` runs
on fulfilment and rejection alike). -/
theorem pending_spans_bounded (ops : List SpanOp)
    (hops : ∀ id, SpanOp.schedule id ∈ ops → id ≠ "")
    (m : List String) (oldest : String) (rest : List String) (id : String)
    (hm : m = oldest :: rest) (ho : oldest ≠ "")
    (hcap : MAX_PENDING_SPANS ≤ m.length) :
    (runSpanOps ops).length ≤ MAX_PENDING_SPANS
    ∧ scheduleSpanCreation m id = mapSet rest id
    ∧ (∀ m2 sid, applySpanOp m2 (.settle sid) = mapDelete m2 sid) := by
  refine ⟨?_, ?_, fun m2 sid => rfl⟩
  · exact (spanOps_fold_invariant ops hops [] (by simp [MAX_PENDING_SPANS]) (by simp)).1
  · subst hm
    unfold scheduleSpanCreation
    simp only [hcap, if_true, List.head?_cons, ho, ne_eq, not_false_iff, if_pos,
      mapDelete, List.erase_cons_head]

/-- Witness for C3: a single schedule against a concrete map of 1,000
nonempty ids. -/
theorem pending_spans_bounded_witness :
    (runSpanOps [.schedule "a"]).length ≤ MAX_PENDING_SPANS
    ∧ scheduleSpanCreation ("o" :: List.replicate 999 "x") "b" =
        mapSet (List.replicate 999 "x") "b"
    ∧ (∀ m2 sid, applySpanOp m2 (.settle sid) = mapDelete m2 sid) :=
  pending_spans_bounded [.schedule "a"]
    (by intro i hi; simp at hi; rw [hi]; decide)
    ("o" :: List.replicate 999 "x") "o" (List.replicate 999 "x") "b"
    rfl (by decide) (by rw [List.length_cons, List.length_replicate]; decide)

theorem retryLoop_all_fail (attemptResult : Nat → Except String Unit)
    (errs : Nat → String) (hfail : ∀ n, attemptResult n = .error (errs n)) :
    retryLoop attemptResult SPAN_RETRY_ATTEMPTS 0 =
      ⟨3, [SPAN_RETRY_DELAY_MS * 1, SPAN_RETRY_DELAY_MS * 2], some (errs 2)⟩ := by
  have st0 : retryLoop attemptResult 0 2 = ⟨1, [], some (errs 2)⟩ := by
    unfold retryLoop
    rw [hfail 2]
  show retryLoop attemptResult (Nat.succ (Nat.succ Nat.zero)) 0 = _
  simp only [retryLoop, hfail 0, hfail 1]
  rw [hfail 2]

/-- C4: a scheduled span write whose `spans.create` call fails on every
attempt makes exactly 3 attempts (1 initial + 2 retries), awaits the
linearly increasing delays 500 ms and 1000 ms between consecutive
attempts, and then invokes the injected error callback exactly once with
the last error and the span id.  The write task is a total function into
`SpanWriteOutcome` — it resolves rather than rejecting, so no failure ever
propagates to a caller. -/
theorem span_write_retry_exhaustion (spanId : String)
    (attemptResult : Nat → Except String Unit) (errs : Nat → String)
    (hfail : ∀ n, attemptResult n = .error (errs n)) :
    (createSpanWithRetry spanId attemptResult true).attempts = 3
    ∧ (createSpanWithRetry spanId attemptResult true).delays = [500, 1000]
    ∧ (createSpanWithRetry spanId attemptResult true).callbackCalls =
        [(errs 2, spanId)] := by
  unfold createSpanWithRetry
  rw [retryLoop_all_fail attemptResult errs hfail]
  refine ⟨rfl, ?_, rfl⟩
  simp [SPAN_RETRY_DELAY_MS]

/-- Witness for C4 at a concrete always-failing write. -/
theorem span_write_retry_exhaustion_witness :
    (createSpanWithRetry "sp_0000000000000009"
        (fun _ => .error "boom") true).attempts = 3
    ∧ (createSpanWithRetry "sp_0000000000000009"
        (fun _ => .error "boom") true).delays = [500, 1000]
    ∧ (createSpanWithRetry "sp_0000000000000009"
        (fun _ => .error "boom") true).callbackCalls =
        [("boom", "sp_0000000000000009")] :=
  span_write_retry_exhaustion "sp_0000000000000009"
    (fun _ => .error "boom") (fun _ => "boom") (fun _ => rfl)

/-! Streaming proofs. -/

theorem aiSdkStream_chunks (p : LLMProvider) (m : String) (run : SdkRun) :
    (aiSdkStream p m run).chunks = streamDeltas run.events := by
  unfold aiSdkStream
  cases run.ending <;> cases lastErrorEvent run.events <;> rfl

theorem aiSdkStream_ok_text (p : LLMProvider) (m : String) (run : SdkRun)
    (cr : CompletionResult)
    (h : (aiSdkStream p m run).resultSettled = .ok cr) :
    cr.text = String.join (streamDeltas run.events) := by
  unfold aiSdkStream at h
  cases hend : run.ending with
  | completed usage tcs fr =>
    rw [hend] at h
    cases hcap : lastErrorEvent run.events with
    | some e => rw [hcap] at h; simp at h
    | none =>
      rw [hcap] at h
      simp at h
      rw [← h]
  | abortError => rw [hend] at h; simp at h
  | thrown e => rw [hend] at h; simp at h
  | thrownTracia te =>
    rw [hend] at h
    cases hcap : lastErrorEvent run.events with
    | some e => rw [hcap] at h; simp at h
    | none => rw [hcap] at h; simp at h

theorem aiSdkStream_abort (p : LLMProvider) (m : String) (run : SdkRun)
    (hend : run.ending = .abortError) :
    aiSdkStream p m run =
      ⟨streamDeltas run.events,
       .error { code := .ABORTED, message := "Stream aborted" },
       some { code := .ABORTED, message := "Stream aborted" }⟩ := by
  unfold aiSdkStream
  rw [hend]

theorem createLocalStream_yielded (input : RunLocalInput) (provider : LLMProvider)
    (spanId traceId : String) (ps : ProviderStreamRun) (latency : Nat) (flag : Bool) :
    (createLocalStream input provider spanId traceId ps latency flag).yielded =
      ps.chunks := by
  unfold createLocalStream
  cases ps.genThrew with
  | none =>
    cases ps.resultSettled with
    | ok cr => rfl
    | error e => rfl
  | some e => rfl

theorem createLocalStream_ok_text (input : RunLocalInput) (provider : LLMProvider)
    (spanId traceId : String) (ps : ProviderStreamRun) (latency : Nat) (flag : Bool)
    (r : StreamResultFinal)
    (hps : ∀ cr, ps.resultSettled = .ok cr → cr.text = String.join ps.chunks)
    (h : (createLocalStream input provider spanId traceId ps latency flag).result = .ok r) :
    r.text = String.join
      (createLocalStream input provider spanId traceId ps latency flag).yielded := by
  rw [createLocalStream_yielded]
  unfold createLocalStream at h
  cases hthrew : ps.genThrew with
  | none =>
    rw [hthrew] at h
    cases hres : ps.resultSettled with
    | ok cr =>
      rw [hres] at h
      simp at h
      rw [← h]
      exact hps cr hres
    | error e =>
      rw [hres] at h
      unfold localStreamCatch at h
      by_cases hf : flag = true
      · rw [hf] at h
        simp at h
        rw [← h]
      · have hf2 : flag = false := by simpa using hf
        rw [hf2] at h
        simp at h
  | some e =>
    rw [hthrew] at h
    unfold localStreamCatch at h
    by_cases hf : flag = true
    · rw [hf] at h
      simp at h
      rw [← h]
    · have hf2 : flag = false := by simpa using hf
      rw [hf2] at h
      simp at h

theorem runLocalStreaming_ok (input : RunLocalInput) (env : StreamEnv)
    (out : LocalStreamOutcome)
    (hrun : runLocalStreaming input env = .ok out) :
    ∃ provider, env.resolved = .ok provider ∧
      out = createLocalStream input provider
        (if sendTraceEnabled input then strOr input.spanId env.genSpanId else "")
        (if sendTraceEnabled input then strOr input.traceId env.genTraceId else "")
        (aiSdkStream provider input.model env.sdkRun) env.latencyMs env.abortedFlag := by
  unfold runLocalStreaming at hrun
  cases hval : validateRunLocalInput input with
  | some e => rw [hval] at hrun; simp at hrun
  | none =>
    rw [hval] at hrun
    by_cases hrej : spanIdRejected input = true
    · rw [hrej] at hrun; simp at hrun
    · have hrej2 : spanIdRejected input = false := by simpa using hrej
      rw [hrej2] at hrun
      simp only [Bool.false_eq_true, if_false] at hrun
      cases hres : env.resolved with
      | error e => rw [hres] at hrun; simp at hrun
      | ok provider =>
        rw [hres] at hrun
        cases hkey : env.apiKey with
        | error e => rw [hkey] at hrun; simp at hrun
        | ok key =>
          rw [hkey] at hrun
          simp at hrun
          exact ⟨provider, rfl, hrun.symm⟩

/-- C1: for every streaming `runLocal` call that resolves successfully
(the stream's `result` promise resolves with `aborted: false`), the
concatenation, in yield order, of all text chunks the stream's iterator
produced equals the `text` field of the resolved result. -/
theorem stream_concat_equals_final_text (input : RunLocalInput) (env : StreamEnv)
    (out : LocalStreamOutcome) (r : StreamResultFinal)
    (hrun : runLocalStreaming input env = .ok out)
    (hres : out.result = .ok r) (hab : r.aborted = false) :
    String.join out.yielded = r.text := by
  obtain ⟨provider, hprov, hout⟩ := runLocalStreaming_ok input env out hrun
  subst hout
  refine (createLocalStream_ok_text input provider _ _ _ _ _ r ?_ hres).symm
  intro cr hcr
  rw [aiSdkStream_chunks]
  exact aiSdkStream_ok_text provider input.model env.sdkRun cr hcr

/-- Witness for C1 at a concrete successful stream. -/
theorem stream_concat_equals_final_text_witness :
    ∃ out r, runLocalStreaming wInput wStreamEnvOk = .ok out
      ∧ out.result = .ok r ∧ r.aborted = false
      ∧ String.join out.yielded = r.text := by
  refine ⟨_, _, rfl, rfl, rfl, ?_⟩
  exact stream_concat_equals_final_text wInput wStreamEnvOk _ _ rfl rfl rfl

/-- C2: a streaming `runLocal` call cancelled before the stream finishes
(the SDK iteration ends in an `AbortError`, raised by `abort()` or by the
caller's signal, so `aborted || signal.aborted` holds in the catch block)
resolves its `result` promise — it never rejects — with `aborted: true`
and `text` equal to the concatenation of the chunks yielded so far. -/
theorem abort_resolves_with_partial_text (input : RunLocalInput) (env : StreamEnv)
    (out : LocalStreamOutcome)
    (hrun : runLocalStreaming input env = .ok out)
    (hend : env.sdkRun.ending = .abortError)
    (hflag : env.abortedFlag = true) :
    ∃ r, out.result = .ok r ∧ r.aborted = true
      ∧ r.text = String.join out.yielded := by
  obtain ⟨provider, hprov, hout⟩ := runLocalStreaming_ok input env out hrun
  subst hout
  rw [aiSdkStream_abort provider input.model env.sdkRun hend]
  unfold createLocalStream localStreamCatch
  rw [hflag]
  simp

/-- Witness for C2 at a concrete aborted stream. -/
theorem abort_resolves_with_partial_text_witness :
    ∃ out, runLocalStreaming wInput wStreamEnvAborted = .ok out
      ∧ ∃ r, out.result = .ok r ∧ r.aborted = true
        ∧ r.text = String.join out.yielded := by
  refine ⟨_, rfl, ?_⟩
  exact abort_resolves_with_partial_text wInput wStreamEnvAborted _ rfl rfl rfl
